import Mathlib

/-!
Shallow embedding of `app_httpd.cpp` (ESP32 camera 4WD robot car firmware):
motor control functions, the MJPEG streaming handler, and the single-capture
handler, together with theorems checking the natural-language specification.
-/

namespace Vizcar

/-! ## Motor pin definitions (app_httpd.cpp lines 13-16) -/

/-- `#define LEFT_M0 13` — left motor backward channel. -/
def LEFT_M0 : Nat := 13
/-- `#define LEFT_M1 12` — left motor forward channel. -/
def LEFT_M1 : Nat := 12
/-- `#define RIGHT_M0 14` — right motor backward channel. -/
def RIGHT_M0 : Nat := 14
/-- `#define RIGHT_M1 15` — right motor forward channel. -/
def RIGHT_M1 : Nat := 15

/-- The default of the global `int speed = 150` (line 24). -/
def speedDefault : Nat := 150

/-- Board state visible to the motor code: PWM duty per pin, the PWM
attachment (frequency, resolution bits) per pin, and whether a pin has been
configured as an output. -/
structure BoardState where
  duty : Nat → Nat
  attach : Nat → Option (Nat × Nat)
  pinOutput : Nat → Bool

/-- `ledcWrite(pin, val)`: set the duty cycle of `pin` to `val`. -/
def ledcWrite (pin val : Nat) (s : BoardState) : BoardState :=
  { s with duty := fun p => if p = pin then val else s.duty p }

/-- `ledcAttach(pin, freq, res)`: attach PWM to `pin` (duty untouched). -/
def ledcAttach (pin freq res : Nat) (s : BoardState) : BoardState :=
  { s with attach := fun p => if p = pin then some (freq, res) else s.attach p }

/-- `pinMode(pin, OUTPUT)`. -/
def pinModeOutput (pin : Nat) (s : BoardState) : BoardState :=
  { s with pinOutput := fun p => if p = pin then true else s.pinOutput p }

/-- Apply a sequence of `(pin, duty)` PWM writes in order. -/
def applyWrites (ws : List (Nat × Nat)) (s : BoardState) : BoardState :=
  ws.foldl (fun st w => ledcWrite w.1 w.2 st) s

/-! ## Motor control functions (lines 59-97).
Each `robot_*` function is a straight-line sequence of four `ledcWrite`
calls; we record that sequence as a write list and define the state effect
as folding it. -/

/-- The writes issued by `robot_stop` (lines 60-63), in source order. -/
def robot_stop_writes : List (Nat × Nat) :=
  [(LEFT_M0, 0), (LEFT_M1, 0), (RIGHT_M0, 0), (RIGHT_M1, 0)]

/-- The writes issued by `robot_left` (lines 68-71), in source order. -/
def robot_left_writes (speed : Nat) : List (Nat × Nat) :=
  [(LEFT_M0, 0), (LEFT_M1, speed), (RIGHT_M0, 0), (RIGHT_M1, speed)]

/-- The writes issued by `robot_right` (lines 76-79), in source order. -/
def robot_right_writes (speed : Nat) : List (Nat × Nat) :=
  [(LEFT_M0, speed), (LEFT_M1, 0), (RIGHT_M0, speed), (RIGHT_M1, 0)]

/-- The writes issued by `robot_fwd` (lines 84-87), in source order. -/
def robot_fwd_writes (speed : Nat) : List (Nat × Nat) :=
  [(LEFT_M0, speed), (LEFT_M1, 0), (RIGHT_M0, 0), (RIGHT_M1, speed)]

/-- The writes issued by `robot_back` (lines 92-95), in source order. -/
def robot_back_writes (speed : Nat) : List (Nat × Nat) :=
  [(LEFT_M0, 0), (LEFT_M1, speed), (RIGHT_M0, speed), (RIGHT_M1, 0)]

/-- `robot_stop()` state effect. -/
def robot_stop (s : BoardState) : BoardState := applyWrites robot_stop_writes s

/-- `robot_left()` state effect (reads the global `speed`). -/
def robot_left (speed : Nat) (s : BoardState) : BoardState :=
  applyWrites (robot_left_writes speed) s

/-- `robot_right()` state effect. -/
def robot_right (speed : Nat) (s : BoardState) : BoardState :=
  applyWrites (robot_right_writes speed) s

/-- `robot_fwd()` state effect. -/
def robot_fwd (speed : Nat) (s : BoardState) : BoardState :=
  applyWrites (robot_fwd_writes speed) s

/-- `robot_back()` state effect. -/
def robot_back (speed : Nat) (s : BoardState) : BoardState :=
  applyWrites (robot_back_writes speed) s

/-- `robot_setup()` (lines 40-57): four `pinMode(_, OUTPUT)` calls, four
`ledcAttach(_, 2000, 8)` calls, then `robot_stop()`. -/
def robot_setup (s : BoardState) : BoardState :=
  robot_stop
    (ledcAttach RIGHT_M1 2000 8
      (ledcAttach RIGHT_M0 2000 8
        (ledcAttach LEFT_M1 2000 8
          (ledcAttach LEFT_M0 2000 8
            (pinModeOutput RIGHT_M1
              (pinModeOutput RIGHT_M0
                (pinModeOutput LEFT_M1
                  (pinModeOutput LEFT_M0 s))))))))

/-- An all-zero initial board state, for concrete evaluation. -/
def initBoard : BoardState :=
  { duty := fun _ => 0, attach := fun _ => none, pinOutput := fun _ => false }

/-- The motor channels, in pin-definition order. -/
def motorPins : List Nat := [LEFT_M0, LEFT_M1, RIGHT_M0, RIGHT_M1]

/-- The motor channels holding a nonzero duty cycle in state `s`. -/
def nzChans (s : BoardState) : List Nat :=
  motorPins.filter (fun p => s.duty p != 0)

/-! ## Streaming definitions (lines 102-105) -/

/-- `#define PART_BOUNDARY "123456789000000000000987654321"`. -/
def PART_BOUNDARY : String := "123456789000000000000987654321"

/-- `_STREAM_BOUNDARY = "\r\n--" PART_BOUNDARY "\r\n"` (line 104). -/
def streamBoundaryStr : String := "\r\n--" ++ PART_BOUNDARY ++ "\r\n"

/-- The ASCII byte sequence of a string (all characters involved are ASCII). -/
def strBytes (s : String) : List Nat := s.toList.map Char.toNat

/-- Little-endian decimal digits of `n`, with explicit fuel so that the
definition is structurally recursive; `fuel = n` suffices. -/
def decDigitsAux : Nat → Nat → List Nat
  | 0, _ => []
  | _, 0 => []
  | fuel + 1, n + 1 => ((n + 1) % 10) :: decDigitsAux fuel ((n + 1) / 10)

/-- The decimal digit string of `n` most-significant first, as `%u` prints
it (a single `0` for `n = 0`). -/
def decRepr (n : Nat) : List Nat :=
  if n = 0 then [0] else (decDigitsAux n n).reverse

/-- The ASCII bytes `%u` produces for `n` (digit `d` prints as byte `48+d`). -/
def natDecimalBytes (n : Nat) : List Nat := (decRepr n).map (fun d => 48 + d)

/-- The bytes `snprintf(part_buf, 64, _STREAM_PART, n)` formats: the part header
`"Content-Type: image/jpeg\r\nContent-Length: %u\r\n\r\n"` (line 105) with
`%u` replaced by the decimal rendering of `n`. -/
def partHeaderBytes (n : Nat) : List Nat :=
  strBytes "Content-Type: image/jpeg\r\nContent-Length: " ++
    natDecimalBytes n ++ strBytes "\r\n\r\n"

/-- The bytes of `_STREAM_BOUNDARY`. -/
def boundaryBytes : List Nat := strBytes streamBoundaryStr

/-! ## Frame buffers and handler environments -/

/-- `pixformat_t` as the streaming code distinguishes it: `PIXFORMAT_JPEG`
versus any non-JPEG (raw) format. -/
inductive PixFormat
  | jpeg
  | raw
deriving DecidableEq, Repr

/-- A `camera_fb_t`: pixel format tag plus the byte contents `buf`/`len`
(the length is `buf.length`). -/
structure Frame where
  format : PixFormat
  buf : List Nat
deriving DecidableEq, Repr

/-- The external results one iteration of the streaming loop can observe:
the `esp_camera_fb_get()` result, the `frame2jpg` result (consulted only
for a raw frame; `none` = conversion failed), and the success of the three
chunked writes (header, body, boundary), in order. -/
structure StreamEnv where
  fb : Option Frame
  conv : Option (List Nat)
  wHeader : Bool
  wBody : Bool
  wBoundary : Bool
deriving DecidableEq, Repr

/-- Externally visible actions of the streaming handler, each recording the
result the external collaborator returned. -/
inductive SAct
  | fbGet (res : Option Frame)
  | frame2jpg (res : Option (List Nat))
  | fbReturn
  | freeBuf
  | sendChunk (data : List Nat) (ok : Bool)
deriving DecidableEq, Repr

/-- The three guarded `httpd_resp_send_chunk` calls of lines 162-171: the
part header, the JPEG body, and the stream boundary, each attempted only
while `res == ESP_OK`. Returns the actions and the final `res`. -/
def sendPhase (body : List Nat) (wH wB wD : Bool) : List SAct × Bool :=
  let hdr := partHeaderBytes body.length
  if wH then
    if wB then
      if wD then
        ([SAct.sendChunk hdr true, SAct.sendChunk body true,
          SAct.sendChunk boundaryBytes true], true)
      else
        ([SAct.sendChunk hdr true, SAct.sendChunk body true,
          SAct.sendChunk boundaryBytes false], false)
    else ([SAct.sendChunk hdr true, SAct.sendChunk body false], false)
  else ([SAct.sendChunk hdr false], false)

/-- One iteration of the `while(true)` body of `stream_handler`
(lines 142-181): acquire, normalize a raw frame (returning the frame buffer
immediately after conversion), send the three chunks, then release the
frame buffer (JPEG path) or free the converted buffer (raw path). Returns
the actions of the iteration and whether `res == ESP_OK` at the bottom. -/
def streamIter (env : StreamEnv) : List SAct × Bool :=
  match env.fb with
  | none => ([SAct.fbGet none], false)
  | some fb =>
    match fb.format with
    | PixFormat.jpeg =>
      let sp := sendPhase fb.buf env.wHeader env.wBody env.wBoundary
      (SAct.fbGet (some fb) :: (sp.1 ++ [SAct.fbReturn]), sp.2)
    | PixFormat.raw =>
      match env.conv with
      | none =>
        ([SAct.fbGet (some fb), SAct.frame2jpg none, SAct.fbReturn], false)
      | some jb =>
        let sp := sendPhase jb env.wHeader env.wBody env.wBoundary
        (SAct.fbGet (some fb) :: SAct.frame2jpg (some jb) :: SAct.fbReturn ::
          (sp.1 ++ [SAct.freeBuf]), sp.2)

/-- The streaming loop run against a finite list of per-iteration external
environments. It breaks as the source does when an iteration ends with
`res != ESP_OK`; reaching the end of the list means the loop is still
running (second component `true`), since the source loop has no success
exit. -/
def streamLoop : List StreamEnv → List SAct × Bool
  | [] => ([], true)
  | e :: rest =>
    let it := streamIter e
    if it.2 then
      let tail := streamLoop rest
      (it.1 ++ tail.1, tail.2)
    else (it.1, false)

/-! ## Single-capture handler (lines 186-217) -/

/-- External results the capture handler can observe. -/
structure CapEnv where
  fb : Option Frame
  conv : Option (List Nat)
  sendOk : Bool
deriving DecidableEq, Repr

/-- Externally visible actions of the capture handler. -/
inductive CapAct
  | fbGet (res : Option Frame)
  | resp500
  | setType (t : String)
  | setHdr (name value : String)
  | frame2jpg (res : Option (List Nat))
  | send (data : List Nat) (ok : Bool)
  | freeBuf
  | fbReturn
deriving DecidableEq, Repr

/-- `capture_handler` (lines 186-217): acquire; on failure send a 500 and
return `ESP_FAIL`; otherwise set headers, send the frame bytes directly if
JPEG, else convert (sending and freeing on success, failing otherwise), and
always return the frame buffer at the end. -/
def capture_handler (env : CapEnv) : List CapAct × Bool :=
  match env.fb with
  | none => ([CapAct.fbGet none, CapAct.resp500], false)
  | some fb =>
    let pre := [CapAct.fbGet (some fb), CapAct.setType "image/jpeg",
      CapAct.setHdr "Content-Disposition" "inline; filename=capture.jpg"]
    match fb.format with
    | PixFormat.jpeg =>
      (pre ++ [CapAct.send fb.buf env.sendOk, CapAct.fbReturn], env.sendOk)
    | PixFormat.raw =>
      match env.conv with
      | some jb =>
        (pre ++ [CapAct.frame2jpg (some jb), CapAct.send jb env.sendOk,
          CapAct.freeBuf, CapAct.fbReturn], env.sendOk)
      | none => (pre ++ [CapAct.frame2jpg none, CapAct.fbReturn], false)

/-! ## Trace observations -/

/-- Is this action an `esp_camera_fb_get` call (regardless of outcome)? -/
def isFbGet : SAct → Bool
  | SAct.fbGet _ => true
  | _ => false

/-- Is this action a successful `esp_camera_fb_get` (a buffer was produced)? -/
def isFbGetOk : SAct → Bool
  | SAct.fbGet (some _) => true
  | _ => false

/-- Is this action an `esp_camera_fb_return` call? -/
def isFbReturn : SAct → Bool
  | SAct.fbReturn => true
  | _ => false

/-- Is this action a `free` of the converted JPEG buffer? -/
def isFreeBuf : SAct → Bool
  | SAct.freeBuf => true
  | _ => false

/-- Is this action a successful `frame2jpg` (a converted buffer was allocated)? -/
def isConvOk : SAct → Bool
  | SAct.frame2jpg (some _) => true
  | _ => false

/-- Is this action a chunked write that failed? -/
def isFailedSend : SAct → Bool
  | SAct.sendChunk _ false => true
  | _ => false

/-- Number of `esp_camera_fb_get` calls after the first failed chunked
write in the trace (0 when no write fails). -/
def acqAfterFailedSend : List SAct → Nat
  | [] => 0
  | a :: rest =>
    if isFailedSend a then rest.countP isFbGet else acqAfterFailedSend rest

/-- The data of the chunked writes, in write order. -/
def sentChunkData (l : List SAct) : List (List Nat) :=
  l.filterMap fun a =>
    match a with
    | SAct.sendChunk d _ => some d
    | _ => none

/-- Capture-handler counterparts of the trace observations. -/
def isCapFbGetOk : CapAct → Bool
  | CapAct.fbGet (some _) => true
  | _ => false

/-- Is this capture action an `esp_camera_fb_return` call? -/
def isCapFbReturn : CapAct → Bool
  | CapAct.fbReturn => true
  | _ => false

/-- Is this capture action a `free` of the converted JPEG buffer? -/
def isCapFreeBuf : CapAct → Bool
  | CapAct.freeBuf => true
  | _ => false

/-- Is this capture action a successful `frame2jpg`? -/
def isCapConvOk : CapAct → Bool
  | CapAct.frame2jpg (some _) => true
  | _ => false

/-! ## Environment classifications for the streaming loop -/

/-- Every external operation of the iteration succeeds: a frame is
produced, a raw frame converts, and all three chunked writes succeed. -/
def envAllOk (e : StreamEnv) : Bool :=
  (match e.fb with
   | none => false
   | some fb =>
     match fb.format with
     | PixFormat.jpeg => true
     | PixFormat.raw => e.conv.isSome) &&
  e.wHeader && e.wBody && e.wBoundary

/-- Acquisition (and conversion when needed) succeed but some chunked
write fails. -/
def badWriteEnv (e : StreamEnv) : Bool :=
  (match e.fb with
   | none => false
   | some fb =>
     match fb.format with
     | PixFormat.jpeg => true
     | PixFormat.raw => e.conv.isSome) &&
  !(e.wHeader && e.wBody && e.wBoundary)

/-- The JPEG body bytes an iteration sends: the frame bytes for a native
JPEG frame, the converted bytes for a raw frame. -/
def iterBody (e : StreamEnv) : List Nat :=
  match e.fb with
  | none => []
  | some fb =>
    match fb.format with
    | PixFormat.jpeg => fb.buf
    | PixFormat.raw => e.conv.getD []

/-! ## Concrete environments for evaluation -/

/-- A fully successful streaming iteration environment: a native JPEG frame
whose bytes are `[255, 216]`, all writes succeeding. -/
def gEnv : StreamEnv :=
  { fb := some { format := PixFormat.jpeg, buf := [255, 216] },
    conv := none, wHeader := true, wBody := true, wBoundary := true }

/-- A streaming iteration environment whose header write fails. -/
def bEnv : StreamEnv :=
  { fb := some { format := PixFormat.jpeg, buf := [255, 216] },
    conv := none, wHeader := false, wBody := true, wBoundary := true }

/-- A capture environment in which the camera produces no buffer. -/
def capFailEnv : CapEnv := { fb := none, conv := none, sendOk := true }

/-- A capture environment with a raw frame whose JPEG conversion fails. -/
def convFailEnv : CapEnv :=
  { fb := some { format := PixFormat.raw, buf := [7] },
    conv := none, sendOk := true }

/-- A streaming environment list: one fully successful JPEG frame followed
by a failed acquisition, ending the loop after a single complete part. -/
def oneFrameEnvs : List StreamEnv :=
  [gEnv, { fb := none, conv := none, wHeader := true, wBody := true,
           wBoundary := true }]

/-! ## Helper lemmas about the send phase and single iterations -/

theorem sendPhase_countP (body : List Nat) (wH wB wD : Bool) (p : SAct → Bool)
    (hp : ∀ d ok, p (SAct.sendChunk d ok) = false) :
    (sendPhase body wH wB wD).1.countP p = 0 := by
  unfold sendPhase
  cases wH <;> cases wB <;> cases wD <;>
    simp [List.countP_cons, hp]

theorem sendPhase_no_fbReturn (body : List Nat) (wH wB wD : Bool) :
    (sendPhase body wH wB wD).1.countP isFbReturn = 0 :=
  sendPhase_countP body wH wB wD isFbReturn (fun _ _ => rfl)

theorem sendPhase_no_fbGetOk (body : List Nat) (wH wB wD : Bool) :
    (sendPhase body wH wB wD).1.countP isFbGetOk = 0 :=
  sendPhase_countP body wH wB wD isFbGetOk (fun _ _ => rfl)

theorem sendPhase_no_fbGet (body : List Nat) (wH wB wD : Bool) :
    (sendPhase body wH wB wD).1.countP isFbGet = 0 :=
  sendPhase_countP body wH wB wD isFbGet (fun _ _ => rfl)

theorem sendPhase_no_freeBuf (body : List Nat) (wH wB wD : Bool) :
    (sendPhase body wH wB wD).1.countP isFreeBuf = 0 :=
  sendPhase_countP body wH wB wD isFreeBuf (fun _ _ => rfl)

theorem sendPhase_no_convOk (body : List Nat) (wH wB wD : Bool) :
    (sendPhase body wH wB wD).1.countP isConvOk = 0 :=
  sendPhase_countP body wH wB wD isConvOk (fun _ _ => rfl)

/-- In one iteration of the streaming loop, `esp_camera_fb_return` is
called exactly as often as `esp_camera_fb_get` succeeds. -/
theorem streamIter_return_eq_acquireOk (e : StreamEnv) :
    (streamIter e).1.countP isFbReturn = (streamIter e).1.countP isFbGetOk := by
  obtain ⟨fb, conv, wH, wB, wD⟩ := e
  cases fb with
  | none => simp [streamIter, isFbReturn, isFbGetOk]
  | some f =>
    cases hf : f.format with
    | jpeg =>
      simp [streamIter, hf, List.countP_cons, List.countP_append,
        isFbReturn, isFbGetOk, sendPhase_no_fbReturn, sendPhase_no_fbGetOk]
    | raw =>
      cases conv with
      | none =>
        simp [streamIter, hf, List.countP_cons, isFbReturn, isFbGetOk]
      | some jb =>
        simp [streamIter, hf, List.countP_cons, List.countP_append,
          isFbReturn, isFbGetOk, sendPhase_no_fbReturn, sendPhase_no_fbGetOk]

/-- In one iteration of the streaming loop, `free` is called on the
converted buffer exactly as often as `frame2jpg` succeeds. -/
theorem streamIter_free_eq_convOk (e : StreamEnv) :
    (streamIter e).1.countP isFreeBuf = (streamIter e).1.countP isConvOk := by
  obtain ⟨fb, conv, wH, wB, wD⟩ := e
  cases fb with
  | none => simp [streamIter, isFreeBuf, isConvOk]
  | some f =>
    cases hf : f.format with
    | jpeg =>
      simp [streamIter, hf, List.countP_cons, List.countP_append,
        isFreeBuf, isConvOk, sendPhase_no_freeBuf, sendPhase_no_convOk]
    | raw =>
      cases conv with
      | none =>
        simp [streamIter, hf, List.countP_cons, isFreeBuf, isConvOk]
      | some jb =>
        simp [streamIter, hf, List.countP_cons, List.countP_append,
          isFreeBuf, isConvOk, sendPhase_no_freeBuf, sendPhase_no_convOk]

/-- An action-count equality that holds for every single iteration extends
to the whole streaming loop. -/
theorem streamLoop_countP_eq (p q : SAct → Bool)
    (h : ∀ e, (streamIter e).1.countP p = (streamIter e).1.countP q) :
    ∀ envs : List StreamEnv,
      (streamLoop envs).1.countP p = (streamLoop envs).1.countP q := by
  intro envs
  induction envs with
  | nil => simp [streamLoop]
  | cons e rest ih =>
    cases hit : (streamIter e).2 with
    | false => simpa [streamLoop, hit] using h e
    | true => simp [streamLoop, hit, List.countP_append, h e, ih]

/-- A fully successful iteration ends with `res == ESP_OK`, performs exactly
one acquire call, and contains no failed chunked write. -/
theorem streamIter_allOk (e : StreamEnv) (h : envAllOk e = true) :
    (streamIter e).2 = true ∧ (streamIter e).1.countP isFbGet = 1 ∧
      (streamIter e).1.countP isFailedSend = 0 := by
  obtain ⟨fb, conv, wH, wB, wD⟩ := e
  cases fb with
  | none => simp [envAllOk] at h
  | some f =>
    cases hf : f.format with
    | jpeg =>
      cases wH <;> cases wB <;> cases wD <;>
        simp_all [envAllOk, hf, streamIter, sendPhase, List.countP_cons,
          isFbGet, isFailedSend]
    | raw =>
      cases conv with
      | none => simp [envAllOk, hf] at h
      | some jb =>
        cases wH <;> cases wB <;> cases wD <;>
          simp_all [envAllOk, hf, streamIter, sendPhase, List.countP_cons,
            isFbGet, isFailedSend]

/-- An iteration whose acquisition (and conversion, when needed) succeeds
but whose write phase fails ends with `res != ESP_OK`, performs exactly one
acquire call, and performs no acquire call after the failed write. -/
theorem streamIter_badWrite (e : StreamEnv) (h : badWriteEnv e = true) :
    (streamIter e).2 = false ∧ (streamIter e).1.countP isFbGet = 1 ∧
      acqAfterFailedSend (streamIter e).1 = 0 := by
  obtain ⟨fb, conv, wH, wB, wD⟩ := e
  cases fb with
  | none => simp [badWriteEnv] at h
  | some f =>
    cases hf : f.format with
    | jpeg =>
      simp [badWriteEnv, hf] at h
      cases wH <;> cases wB <;> cases wD <;>
        simp_all [streamIter, hf, sendPhase, acqAfterFailedSend,
          List.countP_cons, isFbGet, isFailedSend]
    | raw =>
      simp [badWriteEnv, hf] at h
      obtain ⟨hc, hw⟩ := h
      cases conv with
      | none => simp at hc
      | some jb =>
        cases wH <;> cases wB <;> cases wD <;>
          simp_all [streamIter, hf, sendPhase, acqAfterFailedSend,
            List.countP_cons, isFbGet, isFailedSend]

/-- When every iteration environment is fully successful the loop never
breaks: it is still running after consuming all of them. -/
theorem streamLoop_allOk (envs : List StreamEnv)
    (h : ∀ e ∈ envs, envAllOk e = true) : (streamLoop envs).2 = true := by
  induction envs with
  | nil => simp [streamLoop]
  | cons e rest ih =>
    have he := streamIter_allOk e (h e (by simp))
    have hr := ih (fun x hx => h x (by simp [hx]))
    simp [streamLoop, he.1, hr]

/-- A prefix containing no failed chunked write does not affect the count
of acquires after the first failed write. -/
theorem acqAfterFailedSend_append (l1 l2 : List SAct)
    (h : l1.countP isFailedSend = 0) :
    acqAfterFailedSend (l1 ++ l2) = acqAfterFailedSend l2 := by
  induction l1 with
  | nil => simp
  | cons a l1 ih =>
    rw [List.countP_cons] at h
    cases ha : isFailedSend a with
    | false =>
      rw [ha] at h
      simp only [List.cons_append]
      simp [acqAfterFailedSend, ha]
      exact ih (by simpa using h)
    | true => rw [ha] at h; simp at h

/-! ## Evaluation lemmas for the motor functions -/

theorem nzChans_robot_fwd (speed : Nat) (s : BoardState) (hs : speed ≠ 0) :
    nzChans (robot_fwd speed s) = [LEFT_M0, RIGHT_M1] := by
  have hb : (speed != 0) = true := by simpa using hs
  simp [nzChans, motorPins, robot_fwd, robot_fwd_writes, applyWrites,
    ledcWrite, LEFT_M0, LEFT_M1, RIGHT_M0, RIGHT_M1, List.filter, hb]

theorem nzChans_robot_back (speed : Nat) (s : BoardState) (hs : speed ≠ 0) :
    nzChans (robot_back speed s) = [LEFT_M1, RIGHT_M0] := by
  have hb : (speed != 0) = true := by simpa using hs
  simp [nzChans, motorPins, robot_back, robot_back_writes, applyWrites,
    ledcWrite, LEFT_M0, LEFT_M1, RIGHT_M0, RIGHT_M1, List.filter, hb]

theorem nzChans_robot_left (speed : Nat) (s : BoardState) (hs : speed ≠ 0) :
    nzChans (robot_left speed s) = [LEFT_M1, RIGHT_M1] := by
  have hb : (speed != 0) = true := by simpa using hs
  simp [nzChans, motorPins, robot_left, robot_left_writes, applyWrites,
    ledcWrite, LEFT_M0, LEFT_M1, RIGHT_M0, RIGHT_M1, List.filter, hb]

theorem nzChans_robot_right (speed : Nat) (s : BoardState) (hs : speed ≠ 0) :
    nzChans (robot_right speed s) = [LEFT_M0, RIGHT_M0] := by
  have hb : (speed != 0) = true := by simpa using hs
  simp [nzChans, motorPins, robot_right, robot_right_writes, applyWrites,
    ledcWrite, LEFT_M0, LEFT_M1, RIGHT_M0, RIGHT_M1, List.filter, hb]

/-! ## Claim theorems -/

/-- C4: In both the streaming handler and the single-capture handler, every
successful acquire (`esp_camera_fb_get` returning a buffer) is matched by
exactly one release (`esp_camera_fb_return`) on every execution path —
success, normalize-failure, and write-failure: in every trace the number of
release calls equals the number of successful acquire calls, so there is
never a leak and never a double release. -/
theorem claim_C4_fb_release_balanced :
    (∀ envs : List StreamEnv,
      (streamLoop envs).1.countP isFbReturn =
        (streamLoop envs).1.countP isFbGetOk) ∧
    (∀ env : CapEnv,
      (capture_handler env).1.countP isCapFbReturn =
        (capture_handler env).1.countP isCapFbGetOk) := by
  constructor
  · exact streamLoop_countP_eq isFbReturn isFbGetOk streamIter_return_eq_acquireOk
  · intro env
    obtain ⟨fb, conv, sOk⟩ := env
    cases fb with
    | none =>
      simp [capture_handler, List.countP_cons, isCapFbReturn, isCapFbGetOk]
    | some f =>
      cases hf : f.format <;> cases conv <;>
        simp [capture_handler, hf, List.countP_cons, List.countP_append,
          isCapFbReturn, isCapFbGetOk]

/-- C7: In both the streaming handler and the single-capture handler, every
Converted JPEG Buffer allocated by a successful `frame2jpg` call is freed
exactly once: in every trace the number of `free` calls on the converted
buffer equals the number of successful `frame2jpg` calls (in particular
this holds when the converted bytes are written out). -/
theorem claim_C7_converted_buffer_freed_once :
    (∀ envs : List StreamEnv,
      (streamLoop envs).1.countP isFreeBuf =
        (streamLoop envs).1.countP isConvOk) ∧
    (∀ env : CapEnv,
      (capture_handler env).1.countP isCapFreeBuf =
        (capture_handler env).1.countP isCapConvOk) := by
  constructor
  · exact streamLoop_countP_eq isFreeBuf isConvOk streamIter_free_eq_convOk
  · intro env
    obtain ⟨fb, conv, sOk⟩ := env
    cases fb with
    | none =>
      simp [capture_handler, List.countP_cons, isCapFreeBuf, isCapConvOk]
    | some f =>
      cases hf : f.format <;> cases conv <;>
        simp [capture_handler, hf, List.countP_cons, List.countP_append,
          isCapFreeBuf, isCapConvOk]

/-- C6: For every execution of the streaming loop consisting of `N` fully
successful acquire-and-send cycles followed by one iteration whose
acquisition succeeds but whose chunked write fails, the loop breaks
(`res != ESP_OK`), performs exactly `N + 1` acquire calls (one per
successful iteration plus the one of the failing iteration) and performs no
acquire call after the failing write; moreover there is no execution on
which every operation succeeds and the loop stops. -/
theorem claim_C6_stream_loop_write_failure :
    (∀ (goods : List StreamEnv) (bad : StreamEnv),
      (∀ e ∈ goods, envAllOk e = true) → badWriteEnv bad = true →
      (streamLoop (goods ++ [bad])).2 = false ∧
      (streamLoop (goods ++ [bad])).1.countP isFbGet = goods.length + 1 ∧
      acqAfterFailedSend (streamLoop (goods ++ [bad])).1 = 0) ∧
    (∀ envs : List StreamEnv, (∀ e ∈ envs, envAllOk e = true) →
      (streamLoop envs).2 = true) := by
  constructor
  · intro goods bad hg hb
    induction goods with
    | nil =>
      have hbb := streamIter_badWrite bad hb
      refine ⟨?_, ?_, ?_⟩ <;> simp [streamLoop, hbb.1, hbb.2.1, hbb.2.2]
    | cons e goods ih =>
      have he := streamIter_allOk e (hg e (by simp))
      have ihh := ih (fun x hx => hg x (by simp [hx]))
      simp only [List.cons_append]
      constructor
      · simp [streamLoop, he.1, ihh.1]
      constructor
      · simp [streamLoop, he.1, List.countP_append, he.2.1, ihh.2.1]
        omega
      · simp only [streamLoop, he.1, if_true]
        rw [acqAfterFailedSend_append _ _ he.2.2]
        exact ihh.2.2
  · exact streamLoop_allOk

/-- Witness for C6: one successful JPEG frame followed by an iteration
whose header write fails gives a broken loop with exactly two acquire calls
and none after the failed write; evaluated concretely. -/
theorem claim_C6_stream_loop_write_failure_witness :
    (streamLoop ([gEnv] ++ [bEnv])).2 = false ∧
    (streamLoop ([gEnv] ++ [bEnv])).1.countP isFbGet = 1 + 1 ∧
    acqAfterFailedSend (streamLoop ([gEnv] ++ [bEnv])).1 = 0 :=
  claim_C6_stream_loop_write_failure.1 [gEnv] bEnv (by decide) (by decide)

/-- C5: For every Motor Speed in `[1,255]`, each of the four direction
operations issues exactly four duty-cycle writes, one per PWM channel
(in the pin order `LEFT_M0, LEFT_M1, RIGHT_M0, RIGHT_M1`), with exactly
two channels written with Motor Speed and the other two with 0; and
`robot_stop` writes all four channels with 0. -/
theorem claim_C5_direction_write_counts (speed : Nat)
    (h1 : 1 ≤ speed) (h2 : speed ≤ 255) :
    (∀ ws ∈ [robot_fwd_writes speed, robot_back_writes speed,
             robot_left_writes speed, robot_right_writes speed],
      ws.length = 4 ∧ ws.map Prod.fst = motorPins ∧
      ws.countP (fun w => w.2 == speed) = 2 ∧
      ws.countP (fun w => w.2 == 0) = 2) ∧
    robot_stop_writes.length = 4 ∧
    robot_stop_writes.map Prod.fst = motorPins ∧
    robot_stop_writes.countP (fun w => w.2 == 0) = 4 := by
  have hs : speed ≠ 0 := by omega
  have hs' : (0 : Nat) ≠ speed := fun hh => hs hh.symm
  refine ⟨?_, by decide, by decide, by decide⟩
  intro ws hws
  simp only [List.mem_cons, List.not_mem_nil, or_false] at hws
  rcases hws with h | h | h | h <;> subst h <;>
    refine ⟨rfl, rfl, ?_, ?_⟩ <;>
      simp [robot_fwd_writes, robot_back_writes, robot_left_writes,
        robot_right_writes, List.countP_cons, hs, hs']

/-- Witness for C5, evaluated at Motor Speed 150. -/
theorem claim_C5_direction_write_counts_witness :
    (∀ ws ∈ [robot_fwd_writes 150, robot_back_writes 150,
             robot_left_writes 150, robot_right_writes 150],
      ws.length = 4 ∧ ws.map Prod.fst = motorPins ∧
      ws.countP (fun w => w.2 == 150) = 2 ∧
      ws.countP (fun w => w.2 == 0) = 2) ∧
    robot_stop_writes.length = 4 ∧
    robot_stop_writes.map Prod.fst = motorPins ∧
    robot_stop_writes.countP (fun w => w.2 == 0) = 4 :=
  claim_C5_direction_write_counts 150 (by decide) (by decide)

/-- C8: For every Motor Speed in `[1,255]` and any prior board state, no
two distinct directions among forward, backward, left and right leave the
same set of motor channels at a nonzero duty cycle. -/
theorem claim_C8_directions_distinct (speed : Nat) (s : BoardState)
    (h1 : 1 ≤ speed) (h2 : speed ≤ 255) :
    List.Pairwise (fun a b => a ≠ b)
      [nzChans (robot_fwd speed s), nzChans (robot_back speed s),
       nzChans (robot_left speed s), nzChans (robot_right speed s)] := by
  have hs : speed ≠ 0 := by omega
  rw [nzChans_robot_fwd speed s hs, nzChans_robot_back speed s hs,
    nzChans_robot_left speed s hs, nzChans_robot_right speed s hs]
  decide

/-- Witness for C8, evaluated at Motor Speed 150 from the all-zero board. -/
theorem claim_C8_directions_distinct_witness :
    List.Pairwise (fun a b => a ≠ b)
      [nzChans (robot_fwd 150 initBoard), nzChans (robot_back 150 initBoard),
       nzChans (robot_left 150 initBoard), nzChans (robot_right 150 initBoard)] :=
  claim_C8_directions_distinct 150 initBoard (by decide) (by decide)

/-- C9: After `robot_setup` completes, all four motor PWM channels carry
duty cycle 0 (the vehicle starts stopped), from any prior board state,
because the final motor action of `robot_setup` is `robot_stop`. -/
theorem claim_C9_setup_starts_stopped (s : BoardState) :
    (robot_setup s).duty LEFT_M0 = 0 ∧ (robot_setup s).duty LEFT_M1 = 0 ∧
    (robot_setup s).duty RIGHT_M0 = 0 ∧ (robot_setup s).duty RIGHT_M1 = 0 :=
  ⟨rfl, rfl, rfl, rfl⟩

/-- Counterexample to C1 as stated: with Motor Speed 150, `robot_fwd` does
not write 150 to the left-forward channel `LEFT_M1` (pin 12) — it writes 0
there (and 150 to `LEFT_M0`, 0 to `RIGHT_M0`, 150 to `RIGHT_M1`). -/
theorem claim_C1_counterexample :
    ¬ ((robot_fwd 150 initBoard).duty LEFT_M1 = 150 ∧
       (robot_fwd 150 initBoard).duty LEFT_M0 = 0 ∧
       (robot_fwd 150 initBoard).duty RIGHT_M1 = 0 ∧
       (robot_fwd 150 initBoard).duty RIGHT_M0 = 150) := by
  decide

/-- C1 (amended): for the `/go` endpoint (`robot_fwd`) with Motor Speed
150, the duty cycles written are `LEFT_M0` (pin 13) = 150, `LEFT_M1`
(pin 12) = 0, `RIGHT_M0` (pin 14) = 0 and `RIGHT_M1` (pin 15) = 150, i.e.
the left-backward and right-forward channels are driven. -/
theorem claim_C1_robot_fwd_duties (s : BoardState) :
    robot_fwd_writes 150 =
      [(LEFT_M0, 150), (LEFT_M1, 0), (RIGHT_M0, 0), (RIGHT_M1, 150)] ∧
    (robot_fwd 150 s).duty LEFT_M0 = 150 ∧
    (robot_fwd 150 s).duty LEFT_M1 = 0 ∧
    (robot_fwd 150 s).duty RIGHT_M0 = 0 ∧
    (robot_fwd 150 s).duty RIGHT_M1 = 150 :=
  ⟨rfl, rfl, rfl, rfl, rfl⟩

/-- Counterexample to C2 as stated: on a raw frame whose JPEG conversion
fails, the capture handler returns a failure result without ever sending
the 500 server-error status to the client. -/
theorem claim_C2_counterexample :
    (capture_handler convFailEnv).2 = false ∧
    CapAct.resp500 ∉ (capture_handler convFailEnv).1 := by
  decide

/-- C2 (amended): in the single-capture handler a CaptureFailure (no
buffer from the camera) is surfaced to the client as a 500 server-error
status before the handler returns a failure result, but a
ConversionFailure is not: the handler then returns a failure result
without sending any error status response. -/
theorem claim_C2_capture_error_surfacing :
    (∀ env : CapEnv, env.fb = none →
      CapAct.resp500 ∈ (capture_handler env).1 ∧
      (capture_handler env).2 = false) ∧
    (∀ (env : CapEnv) (fb : Frame), env.fb = some fb →
      fb.format = PixFormat.raw → env.conv = none →
      CapAct.resp500 ∉ (capture_handler env).1 ∧
      (capture_handler env).2 = false) := by
  constructor
  · intro env h
    simp [capture_handler, h]
  · intro env fb h hf hc
    simp [capture_handler, h, hf, hc]

/-- Witness for the amended C2: the two error environments evaluated
concretely. -/
theorem claim_C2_capture_error_surfacing_witness :
    (CapAct.resp500 ∈ (capture_handler capFailEnv).1 ∧
      (capture_handler capFailEnv).2 = false) ∧
    (CapAct.resp500 ∉ (capture_handler convFailEnv).1 ∧
      (capture_handler convFailEnv).2 = false) :=
  ⟨claim_C2_capture_error_surfacing.1 capFailEnv rfl,
   claim_C2_capture_error_surfacing.2 convFailEnv
     { format := PixFormat.raw, buf := [7] } rfl rfl rfl⟩

/-- In a fully successful iteration the chunks written are exactly the
part header (with `Content-Length` equal to the body length), the body,
and the boundary, in that order. -/
theorem streamIter_chunks (e : StreamEnv) (h : envAllOk e = true) :
    sentChunkData (streamIter e).1 =
      [partHeaderBytes (iterBody e).length, iterBody e, boundaryBytes] := by
  obtain ⟨fb, conv, wH, wB, wD⟩ := e
  cases fb with
  | none => simp [envAllOk] at h
  | some f =>
    cases hf : f.format with
    | jpeg =>
      cases wH <;> cases wB <;> cases wD <;>
        simp_all [envAllOk, hf, streamIter, sendPhase, sentChunkData, iterBody]
    | raw =>
      cases conv with
      | none => simp [envAllOk, hf] at h
      | some jb =>
        cases wH <;> cases wB <;> cases wD <;>
          simp_all [envAllOk, hf, streamIter, sendPhase, sentChunkData, iterBody]

/-- Counterexample to C3 as stated: for a stream of one successfully sent
JPEG frame the chunks written are header, body, boundary — the part does
not begin with the boundary line, and the stream bytes differ from the
boundary-first layout the claim describes. -/
theorem claim_C3_counterexample :
    sentChunkData (streamLoop oneFrameEnvs).1 =
      [partHeaderBytes 2, [255, 216], boundaryBytes] ∧
    (sentChunkData (streamLoop oneFrameEnvs).1).head? ≠ some boundaryBytes ∧
    (sentChunkData (streamLoop oneFrameEnvs).1).flatten ≠
      boundaryBytes ++ partHeaderBytes 2 ++ [255, 216] := by
  refine ⟨by decide, by decide, by decide⟩

/-- C3 (amended): for every frame the streaming handler sends, the bytes
written for that part are, in this order: the header `Content-Type:
image/jpeg\r\nContent-Length: <n>\r\n\r\n` where `n` is the exact byte
length of that frame's JPEG body, then the `n` raw JPEG body bytes, then
the boundary line `\r\n--<boundary-token>\r\n`; so every frame after the
first is immediately preceded by a boundary line, while the first is not. -/
theorem claim_C3_part_byte_order :
    ∀ envs : List StreamEnv, (∀ e ∈ envs, envAllOk e = true) →
      sentChunkData (streamLoop envs).1 =
        (envs.map fun e =>
          [partHeaderBytes (iterBody e).length, iterBody e,
            boundaryBytes]).flatten := by
  intro envs h
  induction envs with
  | nil => simp [streamLoop, sentChunkData]
  | cons e rest ih =>
    have he := streamIter_allOk e (h e (by simp))
    have hr := ih (fun x hx => h x (by simp [hx]))
    simp [streamLoop, he.1, sentChunkData, List.filterMap_append] at hr ⊢
    rw [← sentChunkData, ← sentChunkData, streamIter_chunks e (h e (by simp))]
    simp [hr, sentChunkData]

/-- Witness for the amended C3: one successful JPEG frame evaluated
concretely. -/
theorem claim_C3_part_byte_order_witness :
    sentChunkData (streamLoop [gEnv]).1 =
      ([gEnv].map fun e =>
        [partHeaderBytes (iterBody e).length, iterBody e,
          boundaryBytes]).flatten :=
  claim_C3_part_byte_order [gEnv] (by decide)

/-- The decimal digit list of `n` has at most `k` digits when `n < 10^k`. -/
theorem decDigitsAux_length_le :
    ∀ (fuel n k : Nat), n < 10 ^ k → (decDigitsAux fuel n).length ≤ k := by
  intro fuel
  induction fuel with
  | zero => intro n k _; simp [decDigitsAux]
  | succ fuel ih =>
    intro n k h
    cases n with
    | zero => simp [decDigitsAux]
    | succ m =>
      cases k with
      | zero => rw [pow_zero] at h; omega
      | succ j =>
        simp only [decDigitsAux, List.length_cons]
        have hdiv : (m + 1) / 10 < 10 ^ j := by
          rw [Nat.div_lt_iff_lt_mul (by norm_num : (0 : Nat) < 10)]
          calc m + 1 < 10 ^ (j + 1) := h
            _ = 10 ^ j * 10 := by ring
        have := ih ((m + 1) / 10) j hdiv
        omega

/-- The printed decimal representation of `n < 10^k` (with `1 ≤ k`) has at
most `k` characters. -/
theorem decRepr_length_le (n k : Nat) (hk : 1 ≤ k) (h : n < 10 ^ k) :
    (decRepr n).length ≤ k := by
  unfold decRepr
  split
  · simpa using hk
  · simpa using decDigitsAux_length_le n n k h

/-- C10: for every frame byte length `n` representable as an unsigned
32-bit integer, the formatted part header is at most 56 bytes, strictly
below the 64-byte snprintf bound of the streaming handler, so the header
is never truncated. -/
theorem claim_C10_header_never_truncated (n : Nat) (h : n < 2 ^ 32) :
    (partHeaderBytes n).length ≤ 56 ∧ (partHeaderBytes n).length < 64 := by
  have h10 : n < 10 ^ 10 := lt_of_lt_of_le h (by norm_num)
  have hd : (decRepr n).length ≤ 10 := decRepr_length_le n 10 (by norm_num) h10
  have hfix1 :
      (strBytes "Content-Type: image/jpeg\r\nContent-Length: ").length = 42 := by
    decide
  have hfix2 : (strBytes "\r\n\r\n").length = 4 := by decide
  constructor <;>
    · simp only [partHeaderBytes, natDecimalBytes, List.length_append,
        List.length_map, hfix1, hfix2]
      omega

/-- Witness for C10 at the largest 32-bit value. -/
theorem claim_C10_header_never_truncated_witness :
    (partHeaderBytes 4294967295).length ≤ 56 ∧
    (partHeaderBytes 4294967295).length < 64 :=
  claim_C10_header_never_truncated 4294967295 (by norm_num)

end Vizcar

